import Mathlib

set_option maxHeartbeats 1000000
set_option linter.unusedVariables false

namespace VinAI

/-! Shallow embedding of the campaign-generation pipeline of `Vin-AI`
(`src/services/geminiService.ts` and the id computation of
`src/App.tsx`).  JS strings are modelled by `String`, JS numbers used as
ids and loop indices by `Int` and `Nat`, optional values by `Option`,
and a thrown JS exception by the error message string the code derives
from it (`err?.message || JSON.stringify(err)`), which is the only part
of an exception the code ever inspects. -/

/-- `beginsWith needle hay` is true when `needle` is an initial segment
of `hay` (character lists). -/
def beginsWith : List Char → List Char → Bool
  | [], _ => true
  | _ :: _, [] => false
  | a :: as, b :: bs => a == b && beginsWith as bs

/-- `containsSeq needle hay` is true when `needle` occurs contiguously
inside `hay`; this is the semantics of JS `hay.includes(needle)`. -/
def containsSeq (needle : List Char) : List Char → Bool
  | [] => beginsWith needle []
  | c :: cs => beginsWith needle (c :: cs) || containsSeq needle cs

/-- JS `hay.includes(needle)` on strings. -/
def strIncludes (hay needle : String) : Bool :=
  containsSeq needle.data hay.data

/-- Retryable-error classification translated from `withRetry` in
`geminiService.ts`:
`errorMsg.includes('429') || errorMsg.includes('RESOURCE_EXHAUSTED') || errorMsg.includes('500')`. -/
def isRetryable (msg : String) : Bool :=
  strIncludes msg "429" || strIncludes msg "RESOURCE_EXHAUSTED" || strIncludes msg "500"

/-- Observable outcome of one `withRetry` run: its result (`Except.error
none` models `throw lastError` with `lastError` still the uninitialized
`undefined`; `Except.error (some msg)` models rethrowing a caught error
whose derived message is `msg`), the number of invocations of the
wrapped operation, and the base backoff delay of each sleep performed
(the code adds a random jitter below 1000 ms to each; the jitter is
elided as it does not affect control flow). -/
structure RetryTrace (α : Type) where
  result : Except (Option String) α
  calls : Nat
  delays : List Int

/-- The loop of `withRetry`, at loop counter `i`.  The wrapped operation
is modelled by the outcome `fn k` of its `k`-th invocation. -/
def withRetryGo (fn : Nat → Except String α) (maxRetries : Int) (i : Nat) : RetryTrace α :=
  if h : (i : Int) < maxRetries then
    match fn i with
    | .ok v => ⟨.ok v, 1, []⟩
    | .error msg =>
      if hr : isRetryable msg ∧ (i : Int) < maxRetries - 1 then
        let rest := withRetryGo fn maxRetries (i + 1)
        ⟨rest.result, rest.calls + 1, ((i : Int) + 1) * 3000 :: rest.delays⟩
      else
        ⟨.error (some msg), 1, []⟩
  else
    ⟨.error none, 0, []⟩
termination_by (maxRetries - i).toNat
decreasing_by
  simp_wf
  omega

/-- `withRetry` from `geminiService.ts`.  The JS parameter default is
`maxRetries = 3`; callers in the repository always use the default. -/
def withRetry (fn : Nat → Except String α) (maxRetries : Int) : RetryTrace α :=
  withRetryGo fn maxRetries 0

/-- A campaign item as declared in `src/types.ts` (`AdCampaign`):
stage-1 metadata plus the optional rendered image data URL. -/
structure AdCampaign where
  id : Int
  title : String
  platform : String
  audience : String
  hook : String
  caption : String
  visualConcept : String
  tone : String
  imagePrompt : String
  imageUrl : Option String
  deriving DecidableEq

/-- The stage-1 result shape declared in `src/types.ts`
(`AdGenerationResponse`). -/
structure AdGenerationResponse where
  campaigns : List AdCampaign
  influencerAnalysis : String
  deriving DecidableEq

/-- The item metadata with the image attachment erased; used to state
that the render loop preserves everything except `imageUrl`. -/
def metaOf (c : AdCampaign) : AdCampaign :=
  { c with imageUrl := none }

/-- JS `s.split(',')` on a character list: the pieces of `s` between
occurrences of the comma separator. -/
def splitComma : List Char → List (List Char)
  | [] => [[]]
  | c :: cs =>
    if c = ',' then [] :: splitComma cs
    else
      match splitComma cs with
      | [] => [[c]]
      | p :: ps => (c :: p) :: ps

/-- The payload-normalization expression applied to both input images in
`generateAdCampaigns` and `generateSingleAdCampaign`:
`imageB64.split(',')[1] || imageB64`.  `split(',')[1]` is the piece
after the first comma (`none` when there is no comma), and the JS `||`
falls back to the whole original string when that piece is missing or
the empty string (falsy). -/
def stripDataUri (l : List Char) : List Char :=
  match (splitComma l)[1]? with
  | some p => if p = [] then l else p
  | none => l

/-- `stripDataUri` at the `String` level. -/
def stripPayload (s : String) : String :=
  ⟨stripDataUri s.data⟩

/-- The style-image normalization
`styleImageB64 ? (styleImageB64.split(',')[1] || styleImageB64) : null`:
a missing or empty (falsy) style image yields `null`, otherwise the
stripped payload. -/
def normalizeStyle (style : Option String) : Option String :=
  match style with
  | some s => if s = "" then none else some (stripPayload s)
  | none => none

/-- Outcome of one (retry-wrapped) stage-2 image-render call, as the
orchestrator observes it: either the call settled successfully with an
optional first inline-image part
(`imageResponse.candidates?.[0]?.content?.parts.find(p => p.inlineData)`),
or it rejected with an error whose derived message is `msg`. -/
inductive RenderResult where
  | ok (image : Option String)
  | failed (msg : String)
  deriving DecidableEq

/-- Outcome of the (retry-wrapped) stage-1 strategy call followed by the
text check and `JSON.parse`, as the orchestrator observes it:
the wrapped call rejected (`thrown`), the response `.text` was missing
or empty and the code throws its own error (`noText`), `JSON.parse`
threw (`badJson`), or parsing produced the payload `r` (`parsed`). -/
inductive StratOutcome (α : Type) where
  | thrown (msg : String)
  | noText
  | badJson (msg : String)
  | parsed (r : α)

/-- Observable events of one `generateAdCampaigns` run, in order:
issuing the stage-1 strategy call (with the normalized payloads it
carries), a progress callback, the 500 ms inter-item pause, issuing the
retry-wrapped render call for item `i`, and that call settling
(resolving or rejecting). -/
inductive Event where
  | strategyCall (charPayload : String) (stylePayload : Option String)
  | progress (i : Nat)
  | interItemSleep
  | renderCall (i : Nat)
  | renderSettled (i : Nat)
  deriving DecidableEq

/-- The per-item image attachment of the stage-2 loop body: on a
successful response carrying an inline image part, push
`{ ...campaign, imageUrl: data-URL }`; on a successful response with no
image part, or on a caught render failure, push the draft unchanged. -/
def applyRender (res : RenderResult) (c : AdCampaign) : AdCampaign :=
  match res with
  | .ok (some data) => { c with imageUrl := some ("data:image/png;base64," ++ data) }
  | .ok none => c
  | .failed _ => c

/-- The stage-2 loop of `generateAdCampaigns` (`for i in
0..campaigns.length`): call `onProgress(i)`, pause when `i > 0`, issue
the retry-wrapped render call, and push the item with or without an
image; a caught failure pushes the draft unchanged and continues.
Returns the accumulated item list and the event trace. -/
def genLoop (render : Nat → RenderResult) : Nat → List AdCampaign → List AdCampaign × List Event
  | _, [] => ([], [])
  | i, c :: rest =>
    let evs := Event.progress i ::
      ((if i > 0 then [Event.interItemSleep] else []) ++
        [Event.renderCall i, Event.renderSettled i])
    let p := genLoop render (i + 1) rest
    (applyRender (render i) c :: p.1, evs ++ p.2)

/-- `generateAdCampaigns` from `geminiService.ts`, with the upstream
boundary abstracted by the stage-1 outcome `strat` and the per-index
stage-2 outcome `render`.  Prompt-string construction is elided: it
does not affect control flow or any returned data.  Returns the
result (`Except.error msg` models the function rejecting with an error
of derived message `msg`) together with the event trace. -/
def generateAdCampaigns (characterImageB64 : String) (styleImageB64 : Option String)
    (strat : StratOutcome AdGenerationResponse) (render : Nat → RenderResult) :
    Except String AdGenerationResponse × List Event :=
  let charBase64 := stripPayload characterImageB64
  let styleBase64 := normalizeStyle styleImageB64
  let callEv := Event.strategyCall charBase64 styleBase64
  match strat with
  | .thrown msg => (.error msg, [callEv])
  | .noText => (.error "Agency strategy engine timed out.", [callEv])
  | .badJson msg => (.error msg, [callEv])
  | .parsed result =>
    let p := genLoop render 0 result.campaigns
    (.ok { result with campaigns := p.1 }, callEv :: p.2)

/-- `generateSingleAdCampaign` from `geminiService.ts`: stage-1 draft of
one item, `campaign.id = newId`, then one retry-wrapped render call
that is *not* wrapped in try/catch, followed by the optional image
attachment. -/
def generateSingleAdCampaign (characterImageB64 : String) (styleImageB64 : Option String)
    (newId : Int) (strat : StratOutcome AdCampaign) (render : RenderResult) :
    Except String AdCampaign :=
  let charBase64 := stripPayload characterImageB64
  let styleBase64 := normalizeStyle styleImageB64
  match strat with
  | .thrown msg => .error msg
  | .noText => .error "Variation strategy failed."
  | .badJson msg => .error msg
  | .parsed c0 =>
    let c := { c0 with id := newId }
    match render with
    | .failed msg => .error msg
    | .ok (some data) => .ok { c with imageUrl := some ("data:image/png;base64," ++ data) }
    | .ok none => .ok c

/-- The id computed by `handleGenerateMore` in `src/App.tsx` for the
"add variation" path: `const nextId = result.campaigns.length + 1`. -/
def nextVariationId (campaigns : List AdCampaign) : Int :=
  (campaigns.length : Int) + 1

/-- Modelled from the spec's words for comparison with
`nextVariationId`: "new items continue the id sequence from
`max(existing) + 1`". -/
def specNextId (campaigns : List AdCampaign) : Int :=
  (campaigns.map (fun c => c.id)).foldr max 0 + 1

/-- One per-item event block of the stage-2 loop, used to characterize
the trace of `genLoop`. -/
def block (i : Nat) : List Event :=
  Event.progress i ::
    ((if i > 0 then [Event.interItemSleep] else []) ++
      [Event.renderCall i, Event.renderSettled i])

/-- The event trace of a stage-2 loop that starts at index `i` and
processes `n` items. -/
def pureTrace (i : Nat) : Nat → List Event
  | 0 => []
  | n + 1 => block i ++ pureTrace (i + 1) n

/-- The argument of a progress event, `none` on every other event. -/
def progressArg : Event → Option Nat
  | .progress i => some i
  | _ => none

/-- A concrete stage-1 draft, used to evaluate the theorems on concrete
inputs. -/
def draftA : AdCampaign :=
  { id := 1, title := "Launch", platform := "TikTok", audience := "Gen Z",
    hook := "Look", caption := "New drop", visualConcept := "neon alley",
    tone := "bold", imagePrompt := "vertical neon", imageUrl := none }

/-- A second concrete draft with a distinct id. -/
def draftB : AdCampaign :=
  { draftA with id := 2, title := "Followup" }

/-- A concrete two-item stage-1 result with distinct ids. -/
def cexRes2 : AdGenerationResponse :=
  { campaigns := [draftA, draftB], influencerAnalysis := "analysis" }

/-- A concrete render environment in which only item 1 fails. -/
def cexRender1 : Nat → RenderResult :=
  fun i => if i = 1 then .failed "500 err" else .ok (some "IMG")

/-- A concrete stage-1 result whose two drafts carry the same id. -/
def cexDupRes : AdGenerationResponse :=
  { campaigns := [draftA, draftA], influencerAnalysis := "analysis" }

/-- A concrete stage-1 result with no drafts. -/
def cexEmptyRes : AdGenerationResponse :=
  { campaigns := [], influencerAnalysis := "ok" }

/-- A concrete single-item draft. -/
def singleDraft : AdCampaign :=
  { id := 0, title := "Variation", platform := "Instagram", audience := "Gen Z",
    hook := "hi", caption := "cap", visualConcept := "v", tone := "warm",
    imagePrompt := "p", imageUrl := none }

/-- A concrete accumulated item list whose ids (2 and 5) are not the
initial segment 1..N. -/
def gapList : List AdCampaign :=
  [{ draftA with id := 2 }, { draftA with id := 5 }]

/-- A concrete operation that fails with a retryable message on its
first two invocations and succeeds on the third. -/
def retryOkThird : Nat → Except String Nat :=
  fun n => if n < 2 then .error "429 RESOURCE_EXHAUSTED" else .ok 7

/-- A concrete operation that always fails with a non-retryable
message. -/
def failOnce : Nat → Except String Nat :=
  fun _ => .error "404 not found"

/-! Helper lemmas. -/

theorem splitComma_not_mem (l : List Char) (h : (',' : Char) ∉ l) : splitComma l = [l] := by
  induction l with
  | nil => rfl
  | cons c cs ih =>
    simp only [List.mem_cons, not_or] at h
    have hc : ¬ c = ',' := fun hc => h.1 hc.symm
    simp [splitComma, hc, ih h.2]

theorem splitComma_append (p rest : List Char) (h : (',' : Char) ∉ p) :
    splitComma (p ++ ',' :: rest) = p :: splitComma rest := by
  induction p with
  | nil => simp [splitComma]
  | cons a p ih =>
    simp only [List.mem_cons, not_or] at h
    have ha : ¬ a = ',' := fun hc => h.1 hc.symm
    simp [splitComma, ha, ih h.2]

theorem stripDataUri_split (p x : List Char) (hp : (',' : Char) ∉ p)
    (hx : (',' : Char) ∉ x) (hne : x ≠ []) : stripDataUri (p ++ ',' :: x) = x := by
  unfold stripDataUri
  rw [splitComma_append p x hp, splitComma_not_mem x hx]
  simp [hne]

theorem stripDataUri_no_comma (l : List Char) (h : (',' : Char) ∉ l) :
    stripDataUri l = l := by
  unfold stripDataUri
  rw [splitComma_not_mem l h]
  simp

theorem withRetryGo_ok {α : Type} (fn : Nat → Except String α) (maxRetries : Int) (i : Nat)
    (v : α) (hi : (i : Int) < maxRetries) (hfn : fn i = Except.ok v) :
    withRetryGo fn maxRetries i = ⟨.ok v, 1, []⟩ := by
  unfold withRetryGo
  simp [hi, hfn]

theorem withRetryGo_retry {α : Type} (fn : Nat → Except String α) (maxRetries : Int) (i : Nat)
    (msg : String) (hfn : fn i = Except.error msg) (hr : isRetryable msg = true)
    (hi : (i : Int) < maxRetries - 1) :
    withRetryGo fn maxRetries i =
      ⟨(withRetryGo fn maxRetries (i + 1)).result,
        (withRetryGo fn maxRetries (i + 1)).calls + 1,
        ((i : Int) + 1) * 3000 :: (withRetryGo fn maxRetries (i + 1)).delays⟩ := by
  conv_lhs => unfold withRetryGo
  have hi2 : (i : Int) < maxRetries := by omega
  simp [hi2, hfn, hr, hi]

theorem withRetryGo_fail {α : Type} (fn : Nat → Except String α) (maxRetries : Int) (i : Nat)
    (msg : String) (hi : (i : Int) < maxRetries) (hfn : fn i = Except.error msg)
    (hstop : ¬ (isRetryable msg = true ∧ (i : Int) < maxRetries - 1)) :
    withRetryGo fn maxRetries i = ⟨.error (some msg), 1, []⟩ := by
  unfold withRetryGo
  simp only [hi, dite_true, hfn]
  rw [dif_neg]
  simpa using hstop

theorem withRetryGo_exhausted {α : Type} (fn : Nat → Except String α) (maxRetries : Int)
    (i : Nat) (hi : ¬ (i : Int) < maxRetries) :
    withRetryGo fn maxRetries i = ⟨.error none, 0, []⟩ := by
  unfold withRetryGo
  simp [hi]

/-! Claim theorems. -/

/-- Claim C5: the payload-normalization step strips a data-URI prefix
(`data:image/...;base64,XXXX` with non-empty, comma-free `XXXX` yields
exactly `XXXX`) and is the identity on any comma-free (already bare)
payload, hence idempotent there. -/
theorem stripPayload_data_uri_spec (mid x : String)
    (hmid : (',' : Char) ∉ mid.data) (hx : (',' : Char) ∉ x.data) (hne : x ≠ "") :
    stripPayload ("data:image/" ++ mid ++ ";base64," ++ x) = x ∧
    ∀ s : String, (',' : Char) ∉ s.data → stripPayload s = s := by
  constructor
  · have hdata : ("data:image/" ++ mid ++ ";base64," ++ x).data
        = ("data:image/".data ++ (mid.data ++ ";base64".data)) ++ ',' :: x.data := by
      simp only [String.data_append]
      simp [List.append_assoc]
    have hp : (',' : Char) ∉ "data:image/".data ++ (mid.data ++ ";base64".data) := by
      simp only [List.mem_append, not_or]
      refine ⟨by decide, hmid, by decide⟩
    have hdne : x.data ≠ [] := by
      intro h0
      exact hne (String.ext (h0.trans rfl))
    rw [stripPayload, hdata, stripDataUri_split _ _ hp hx hdne]
  · intro s hs
    rw [stripPayload, stripDataUri_no_comma s.data hs]

/-- Concrete instance of `stripPayload_data_uri_spec`. -/
theorem stripPayload_data_uri_spec_witness :
    ((',' : Char) ∉ "png".data) ∧ ((',' : Char) ∉ "QUJD".data) ∧ ("QUJD" : String) ≠ "" ∧
    (stripPayload ("data:image/" ++ "png" ++ ";base64," ++ "QUJD") = "QUJD" ∧
      ∀ s : String, (',' : Char) ∉ s.data → stripPayload s = s) :=
  ⟨by decide, by decide, by decide,
    stripPayload_data_uri_spec "png" "QUJD" (by decide) (by decide) (by decide)⟩

/-- Claim C3: an operation that fails with a retryable message on its
first two invocations and succeeds on the third makes `withRetry` (at
the JS default of 3 attempts) return the success and invoke the
operation exactly three times. -/
theorem withRetry_retryable_twice_then_success {α : Type} (fn : Nat → Except String α)
    (v : α) (m0 m1 : String) (h0 : fn 0 = Except.error m0) (h1 : fn 1 = Except.error m1)
    (h2 : fn 2 = Except.ok v) (r0 : isRetryable m0 = true) (r1 : isRetryable m1 = true) :
    (withRetry fn 3).result = Except.ok v ∧ (withRetry fn 3).calls = 3 := by
  have e2 : withRetryGo fn 3 2 = ⟨.ok v, 1, []⟩ :=
    withRetryGo_ok fn 3 2 v (by norm_num) h2
  have e1 := withRetryGo_retry fn 3 1 m1 h1 r1 (by norm_num)
  have e0 := withRetryGo_retry fn 3 0 m0 h0 r0 (by norm_num)
  rw [withRetry, e0, e1, e2]
  exact ⟨rfl, rfl⟩

/-- Concrete instance of `withRetry_retryable_twice_then_success`. -/
theorem withRetry_retryable_twice_then_success_witness :
    (retryOkThird 0 = Except.error "429 RESOURCE_EXHAUSTED") ∧
    (retryOkThird 1 = Except.error "429 RESOURCE_EXHAUSTED") ∧
    (retryOkThird 2 = Except.ok 7) ∧
    (isRetryable "429 RESOURCE_EXHAUSTED" = true) ∧
    ((withRetry retryOkThird 3).result = Except.ok 7 ∧ (withRetry retryOkThird 3).calls = 3) :=
  ⟨rfl, rfl, rfl, by decide,
    withRetry_retryable_twice_then_success retryOkThird 7 _ _ rfl rfl rfl
      (by decide) (by decide)⟩

/-- Claim C4: an operation whose first invocation fails with a
non-retryable message makes `withRetry` propagate that same error after
exactly one invocation, with no backoff delay. -/
theorem withRetry_nonretryable_propagates {α : Type} (fn : Nat → Except String α)
    (m : String) (h0 : fn 0 = Except.error m) (hnr : isRetryable m = false) :
    (withRetry fn 3).result = Except.error (some m) ∧ (withRetry fn 3).calls = 1 ∧
      (withRetry fn 3).delays = [] := by
  have e0 := withRetryGo_fail fn 3 0 m (by norm_num) h0 (by simp [hnr])
  rw [withRetry, e0]
  exact ⟨rfl, rfl, rfl⟩

/-- Concrete instance of `withRetry_nonretryable_propagates`. -/
theorem withRetry_nonretryable_propagates_witness :
    (failOnce 0 = Except.error "404 not found") ∧
    (isRetryable "404 not found" = false) ∧
    ((withRetry failOnce 3).result = Except.error (some "404 not found") ∧
      (withRetry failOnce 3).calls = 1 ∧ (withRetry failOnce 3).delays = []) :=
  ⟨rfl, by decide, withRetry_nonretryable_propagates failOnce _ rfl (by decide)⟩

/-- Claim C10: with a non-positive `maxRetries` the loop of `withRetry`
never runs, the operation is never invoked, no delay is performed, and
the uninitialized `lastError` (the JS `undefined`, modelled by the
error value `none`) is thrown. -/
theorem withRetry_nonpositive_budget {α : Type} (fn : Nat → Except String α)
    (maxRetries : Int) (h : maxRetries ≤ 0) :
    (withRetry fn maxRetries).result = Except.error none ∧
    (withRetry fn maxRetries).calls = 0 ∧ (withRetry fn maxRetries).delays = [] := by
  have e := withRetryGo_exhausted fn maxRetries 0 (by push_cast; omega)
  rw [withRetry, e]
  exact ⟨rfl, rfl, rfl⟩

/-- Concrete instance of `withRetry_nonpositive_budget`. -/
theorem withRetry_nonpositive_budget_witness :
    ((0 : Int) ≤ 0) ∧
    ((withRetry failOnce 0).result = Except.error none ∧
      (withRetry failOnce 0).calls = 0 ∧ (withRetry failOnce 0).delays = []) :=
  ⟨by decide, withRetry_nonpositive_budget failOnce 0 (by decide)⟩

theorem metaOf_applyRender (res : RenderResult) (c : AdCampaign) :
    metaOf (applyRender res c) = metaOf c := by
  cases res with
  | failed m => rfl
  | ok img => cases img <;> rfl

theorem id_applyRender (res : RenderResult) (c : AdCampaign) :
    (applyRender res c).id = c.id := by
  cases res with
  | failed m => rfl
  | ok img => cases img <;> rfl

theorem genLoop_fst_length (render : Nat → RenderResult) (drafts : List AdCampaign)
    (i : Nat) : (genLoop render i drafts).1.length = drafts.length := by
  induction drafts generalizing i with
  | nil => rfl
  | cons c rest ih => simp [genLoop, ih]

theorem genLoop_fst_getElem? (render : Nat → RenderResult) (drafts : List AdCampaign)
    (i j : Nat) :
    (genLoop render i drafts).1[j]?
      = (drafts[j]?).map (fun c => applyRender (render (i + j)) c) := by
  induction drafts generalizing i j with
  | nil => simp [genLoop]
  | cons c rest ih =>
    cases j with
    | zero => simp [genLoop]
    | succ j =>
      simp only [genLoop, List.getElem?_cons_succ]
      rw [ih]
      rw [(by omega : i + 1 + j = i + (j + 1))]

theorem genLoop_fst_map {β : Type} (render : Nat → RenderResult) (drafts : List AdCampaign)
    (i : Nat) (f : AdCampaign → β) (hf : ∀ res c, f (applyRender res c) = f c) :
    (genLoop render i drafts).1.map f = drafts.map f := by
  induction drafts generalizing i with
  | nil => rfl
  | cons c rest ih => simp [genLoop, hf, ih]

theorem genLoop_snd (render : Nat → RenderResult) (drafts : List AdCampaign) (i : Nat) :
    (genLoop render i drafts).2 = pureTrace i drafts.length := by
  induction drafts generalizing i with
  | nil => rfl
  | cons c rest ih => simp [genLoop, pureTrace, block, ih]

theorem block_filterMap_progress (i : Nat) : (block i).filterMap progressArg = [i] := by
  by_cases h : i > 0 <;> simp [block, progressArg, h]

theorem pureTrace_filterMap_progress (n : Nat) :
    ∀ i, (pureTrace i n).filterMap progressArg = (List.range n).map (fun j => i + j) := by
  induction n with
  | zero => intro i; simp [pureTrace]
  | succ n ih =>
    intro i
    rw [pureTrace, List.filterMap_append, block_filterMap_progress, ih (i + 1),
      List.range_succ_eq_map, List.map_cons, List.map_map]
    have hfun : ((fun j => i + j) ∘ Nat.succ) = fun j => i + 1 + j := by
      funext j
      simp only [Function.comp_apply]
      omega
    rw [hfun]
    simp

theorem block_count_progress (i k : Nat) :
    (block i).count (Event.progress k) = if k = i then 1 else 0 := by
  by_cases h : i > 0 <;> by_cases hk : k = i <;>
    simp [block, h, hk, List.count_cons, List.count_append]

theorem block_count_renderCall (i k : Nat) :
    (block i).count (Event.renderCall k) = if k = i then 1 else 0 := by
  by_cases h : i > 0 <;> by_cases hk : k = i <;>
    simp [block, h, hk, List.count_cons, List.count_append]

theorem pureTrace_count_progress (n : Nat) :
    ∀ i k, (pureTrace i n).count (Event.progress k)
      = if i ≤ k ∧ k < i + n then 1 else 0 := by
  induction n with
  | zero =>
    intro i k
    rw [pureTrace]
    simp only [List.count_nil]
    rw [if_neg (by omega)]
  | succ n ih =>
    intro i k
    rw [pureTrace, List.count_append, block_count_progress, ih (i + 1) k]
    split_ifs <;> omega

theorem pureTrace_count_renderCall (n : Nat) :
    ∀ i k, (pureTrace i n).count (Event.renderCall k)
      = if i ≤ k ∧ k < i + n then 1 else 0 := by
  induction n with
  | zero =>
    intro i k
    rw [pureTrace]
    simp only [List.count_nil]
    rw [if_neg (by omega)]
  | succ n ih =>
    intro i k
    rw [pureTrace, List.count_append, block_count_renderCall, ih (i + 1) k]
    split_ifs <;> omega

theorem sublist_progress_renderCall (n : Nat) :
    ∀ i k, i ≤ k → k < i + n →
      [Event.progress k, Event.renderCall k].Sublist (pureTrace i n) := by
  induction n with
  | zero => intro i k h1 h2; omega
  | succ n ih =>
    intro i k h1 h2
    rw [pureTrace]
    by_cases hk : k = i
    · subst hk
      refine List.Sublist.trans ?_ (List.sublist_append_left _ _)
      rw [block]
      refine List.Sublist.cons₂ _ ?_
      refine List.Sublist.trans ?_ (List.sublist_append_right _ _)
      exact List.Sublist.cons₂ _ (List.nil_sublist _)
    · exact List.Sublist.trans (ih (i + 1) k (by omega) (by omega))
        (List.sublist_append_right _ _)

theorem sublist_settled_renderCall (n : Nat) :
    ∀ i k, i ≤ k → k + 1 < i + n →
      [Event.renderSettled k, Event.renderCall (k + 1)].Sublist (pureTrace i n) := by
  induction n with
  | zero => intro i k h1 h2; omega
  | succ n ih =>
    intro i k h1 h2
    rw [pureTrace]
    by_cases hk : k = i
    · subst hk
      have hs1 : [Event.renderSettled k].Sublist (block k) := by
        rw [List.singleton_sublist]
        by_cases h0 : k > 0 <;> simp [block, h0]
      have hs2 : [Event.renderCall (k + 1)].Sublist (pureTrace (k + 1) n) := by
        cases n with
        | zero => omega
        | succ m =>
          rw [pureTrace]
          refine List.Sublist.trans ?_ (List.sublist_append_left _ _)
          rw [List.singleton_sublist]
          by_cases h0 : k + 1 > 0 <;> simp [block, h0]
      exact hs1.append hs2
    · exact List.Sublist.trans (ih (i + 1) k (by omega) (by omega))
        (List.sublist_append_right _ _)

theorem foldr_max_nonneg_init (l : List Int) (a : Int) (ha : 0 ≤ a) :
    l.foldr max a = max (l.foldr max 0) a := by
  induction l with
  | nil => simp [max_eq_right ha]
  | cons x l ih => simp [List.foldr_cons, ih, max_assoc]

theorem foldr_max_range_ids (n : Nat) :
    ((List.range n).map (fun (j : Nat) => (j : Int) + 1)).foldr max 0 = n := by
  induction n with
  | zero => simp
  | succ n ih =>
    rw [List.range_succ, List.map_append, List.foldr_append]
    simp only [List.map_cons, List.map_nil, List.foldr_cons, List.foldr_nil]
    rw [max_eq_left (by positivity)]
    rw [foldr_max_nonneg_init _ _ (by positivity), ih]
    rw [max_eq_right (by omega)]
    push_cast
    ring

/-- Claim C1: if the stage-2 render call for item `k` fails, the batch
still succeeds, the returned list has one entry per draft, entry `k` is
the draft itself with no image attached, and every entry `j ≠ k` is
exactly what it would have been under any render environment agreeing
with this one away from `k`. -/
theorem generateAdCampaigns_render_failure_isolated (char : String) (style : Option String)
    (res : AdGenerationResponse) (render : Nat → RenderResult) (k : Nat) (e : String)
    (hk : render k = RenderResult.failed e)
    (hkimg : (res.campaigns[k]?).map (fun c => c.imageUrl) = some none) :
    ∃ out, (generateAdCampaigns char style (.parsed res) render).1 = Except.ok out ∧
      out.campaigns.length = res.campaigns.length ∧
      out.campaigns[k]? = res.campaigns[k]? ∧
      (out.campaigns[k]?).map (fun c => c.imageUrl) = some none ∧
      (∀ render2 : Nat → RenderResult, (∀ j, j ≠ k → render2 j = render j) →
        ∃ out2, (generateAdCampaigns char style (.parsed res) render2).1 = Except.ok out2 ∧
          ∀ j, j ≠ k → out2.campaigns[j]? = out.campaigns[j]?) := by
  refine ⟨{ res with campaigns := (genLoop render 0 res.campaigns).1 }, rfl, ?_, ?_, ?_, ?_⟩
  · exact genLoop_fst_length render res.campaigns 0
  · show (genLoop render 0 res.campaigns).1[k]? = res.campaigns[k]?
    rw [genLoop_fst_getElem?]
    simp only [Nat.zero_add, hk]
    cases res.campaigns[k]? <;> rfl
  · show ((genLoop render 0 res.campaigns).1[k]?).map (fun c => c.imageUrl) = some none
    rw [genLoop_fst_getElem?]
    simp only [Nat.zero_add, hk]
    cases hr : res.campaigns[k]? with
    | none => rw [hr] at hkimg; simp at hkimg
    | some c =>
      rw [hr] at hkimg
      simp at hkimg
      simp [applyRender, hkimg]
  · intro render2 hagree
    refine ⟨{ res with campaigns := (genLoop render2 0 res.campaigns).1 }, rfl, ?_⟩
    intro j hj
    show (genLoop render2 0 res.campaigns).1[j]?
      = (genLoop render 0 res.campaigns).1[j]?
    rw [genLoop_fst_getElem?, genLoop_fst_getElem?]
    simp only [Nat.zero_add, hagree j hj]

/-- Concrete instance of `generateAdCampaigns_render_failure_isolated`
at a two-draft batch whose second render call fails. -/
theorem generateAdCampaigns_render_failure_isolated_witness :
    (cexRender1 1 = RenderResult.failed "500 err") ∧
    ((cexRes2.campaigns[1]?).map (fun c => c.imageUrl) = some none) ∧
    (∃ out, (generateAdCampaigns "img" none (.parsed cexRes2) cexRender1).1 = Except.ok out ∧
      out.campaigns.length = cexRes2.campaigns.length ∧
      out.campaigns[1]? = cexRes2.campaigns[1]? ∧
      (out.campaigns[1]?).map (fun c => c.imageUrl) = some none ∧
      (∀ render2 : Nat → RenderResult, (∀ j, j ≠ 1 → render2 j = cexRender1 j) →
        ∃ out2, (generateAdCampaigns "img" none (.parsed cexRes2) render2).1 = Except.ok out2 ∧
          ∀ j, j ≠ 1 → out2.campaigns[j]? = out.campaigns[j]?)) :=
  ⟨rfl, rfl,
    generateAdCampaigns_render_failure_isolated "img" none cexRes2 cexRender1 1 "500 err"
      rfl rfl⟩

/-- Counterexample to claim C2 as stated: a stage-1 success whose two
drafts share id 1 is returned as a list whose ids are not unique; the
code never enforces id uniqueness. -/
theorem batch_duplicate_ids_cex :
    (generateAdCampaigns "img" none (.parsed cexDupRes) (fun _ => RenderResult.ok none)).1
      = Except.ok cexDupRes ∧
    ¬ (cexDupRes.campaigns.map (fun c => c.id)).Nodup :=
  ⟨rfl, by decide⟩

/-- Claim C2 (amended): whenever the stage-1 call succeeds, the batch
returns exactly one item per draft in draft order, with metadata equal
to the draft's and ids exactly the drafts' ids; hence the returned ids
are unique whenever the drafted ids were (the code adds no uniqueness
enforcement of its own). -/
theorem generateAdCampaigns_length_metadata_ids (char : String) (style : Option String)
    (res : AdGenerationResponse) (render : Nat → RenderResult)
    (hids : (res.campaigns.map (fun c => c.id)).Nodup) :
    ∃ out, (generateAdCampaigns char style (.parsed res) render).1 = Except.ok out ∧
      out.campaigns.length = res.campaigns.length ∧
      out.campaigns.map metaOf = res.campaigns.map metaOf ∧
      out.campaigns.map (fun c => c.id) = res.campaigns.map (fun c => c.id) ∧
      (out.campaigns.map (fun c => c.id)).Nodup := by
  refine ⟨{ res with campaigns := (genLoop render 0 res.campaigns).1 }, rfl,
    genLoop_fst_length render res.campaigns 0,
    genLoop_fst_map render res.campaigns 0 metaOf metaOf_applyRender, ?_, ?_⟩
  · exact genLoop_fst_map render res.campaigns 0 (fun c => c.id) id_applyRender
  · rw [show ({ res with campaigns := (genLoop render 0 res.campaigns).1 }
        : AdGenerationResponse).campaigns = (genLoop render 0 res.campaigns).1 from rfl]
    rw [genLoop_fst_map render res.campaigns 0 (fun c => c.id) id_applyRender]
    exact hids

/-- Concrete instance of `generateAdCampaigns_length_metadata_ids`. -/
theorem generateAdCampaigns_length_metadata_ids_witness :
    ((cexRes2.campaigns.map (fun c => c.id)).Nodup) ∧
    (∃ out, (generateAdCampaigns "img" none (.parsed cexRes2) cexRender1).1 = Except.ok out ∧
      out.campaigns.length = cexRes2.campaigns.length ∧
      out.campaigns.map metaOf = cexRes2.campaigns.map metaOf ∧
      out.campaigns.map (fun c => c.id) = cexRes2.campaigns.map (fun c => c.id) ∧
      (out.campaigns.map (fun c => c.id)).Nodup) :=
  ⟨by decide,
    generateAdCampaigns_length_metadata_ids "img" none cexRes2 cexRender1 (by decide)⟩

/-- Counterexample to claim C6 as stated: on the input
`data:image/png;base64,` (and likewise on the empty string) no
`InputError` is raised before any upstream call — the run issues the
stage-1 call (with the payload the `||` fallback produced) and
completes. -/
theorem no_input_error_cex :
    generateAdCampaigns "data:image/png;base64," none (.parsed cexEmptyRes)
        (fun _ => RenderResult.ok none)
      = (Except.ok cexEmptyRes,
          [Event.strategyCall "data:image/png;base64," none]) := rfl

/-- Claim C6 (amended): `generateAdCampaigns` performs no emptiness
validation and defines no `InputError`: on every input the first thing
the run does is issue the stage-1 upstream call carrying the stripped
payloads; moreover the empty string strips to the empty string, and
`data:image/png;base64,` strips to itself (the falsy `||` fallback
returns the whole original string when the piece after the comma is
empty), so it is not even empty after stripping. -/
theorem generateAdCampaigns_always_issues_strategy (char : String) (style : Option String)
    (strat : StratOutcome AdGenerationResponse) (render : Nat → RenderResult) :
    (generateAdCampaigns char style strat render).2.head?
        = some (Event.strategyCall (stripPayload char) (normalizeStyle style)) ∧
    stripPayload "" = "" ∧
    stripPayload "data:image/png;base64," = "data:image/png;base64," := by
  refine ⟨?_, rfl, rfl⟩
  cases strat <;> rfl

/-- Counterexample to claim C7 as stated: when the draft succeeds but
the retry-wrapped render call rejects, `generateSingleAdCampaign`
rejects with that error instead of returning the drafted item — its
render call is not wrapped in try/catch. -/
theorem single_render_failure_cex :
    generateSingleAdCampaign "img" none 6 (.parsed singleDraft)
        (RenderResult.failed "500 boom")
      = Except.error "500 boom" := rfl

/-- Claim C7 (amended): after a successful draft,
`generateSingleAdCampaign` returns the item without an image only when
the render call *settles successfully without an image part*; a thrown
render failure (including retry exhaustion) propagates and fails the
whole call, and a draft-stage failure also fails the whole call. -/
theorem generateSingleAdCampaign_render_behavior (char : String) (style : Option String)
    (newId : Int) (c : AdCampaign) (e : String) (r : RenderResult) :
    generateSingleAdCampaign char style newId (.parsed c) (RenderResult.ok none)
        = Except.ok { c with id := newId } ∧
    generateSingleAdCampaign char style newId (.parsed c) (RenderResult.failed e)
        = Except.error e ∧
    generateSingleAdCampaign char style newId (.thrown e) r = Except.error e ∧
    (∀ d : String, generateSingleAdCampaign char style newId (.parsed c)
        (RenderResult.ok (some d))
      = Except.ok ({ c with id := newId, imageUrl := some ("data:image/png;base64," ++ d) } : AdCampaign)) :=
  ⟨rfl, rfl, rfl, fun d => rfl⟩

/-- Claim C8: in a batch over `N` drafts, the progress callback fires
with exactly the strictly increasing arguments `0..N-1`, once each;
each `progress k` precedes the (unique) issue of render call `k`; and
render call `k+1` is only issued after render call `k` has settled. -/
theorem generateAdCampaigns_progress_sequential (char : String) (style : Option String)
    (res : AdGenerationResponse) (render : Nat → RenderResult) :
    ((generateAdCampaigns char style (.parsed res) render).2.filterMap progressArg
        = List.range res.campaigns.length) ∧
    (∀ k, k < res.campaigns.length →
      [Event.progress k, Event.renderCall k].Sublist
          (generateAdCampaigns char style (.parsed res) render).2 ∧
      (generateAdCampaigns char style (.parsed res) render).2.count (Event.progress k) = 1 ∧
      (generateAdCampaigns char style (.parsed res) render).2.count (Event.renderCall k) = 1) ∧
    (∀ k, k + 1 < res.campaigns.length →
      [Event.renderSettled k, Event.renderCall (k + 1)].Sublist
        (generateAdCampaigns char style (.parsed res) render).2) := by
  have htr : (generateAdCampaigns char style (.parsed res) render).2
      = Event.strategyCall (stripPayload char) (normalizeStyle style)
          :: pureTrace 0 res.campaigns.length := by
    show Event.strategyCall (stripPayload char) (normalizeStyle style)
        :: (genLoop render 0 res.campaigns).2 = _
    rw [genLoop_snd]
  rw [htr]
  refine ⟨?_, ?_, ?_⟩
  · rw [List.filterMap_cons]
    simp only [progressArg]
    rw [pureTrace_filterMap_progress]
    simp
  · intro k hkn
    refine ⟨List.Sublist.cons _ (sublist_progress_renderCall _ 0 k (by omega) (by omega)),
      ?_, ?_⟩
    · rw [List.count_cons, pureTrace_count_progress]
      simp only [if_pos (by omega : 0 ≤ k ∧ k < 0 + res.campaigns.length)]
      simp
    · rw [List.count_cons, pureTrace_count_renderCall]
      simp only [if_pos (by omega : 0 ≤ k ∧ k < 0 + res.campaigns.length)]
      simp
  · intro k hkn
    exact List.Sublist.cons _ (sublist_settled_renderCall _ 0 k (by omega) (by omega))

/-- Concrete instance of `generateAdCampaigns_progress_sequential`. -/
theorem generateAdCampaigns_progress_sequential_witness :
    ((generateAdCampaigns "img" none (.parsed cexRes2) cexRender1).2.filterMap progressArg
        = List.range cexRes2.campaigns.length) ∧
    (∀ k, k < cexRes2.campaigns.length →
      [Event.progress k, Event.renderCall k].Sublist
          (generateAdCampaigns "img" none (.parsed cexRes2) cexRender1).2 ∧
      (generateAdCampaigns "img" none (.parsed cexRes2) cexRender1).2.count
          (Event.progress k) = 1 ∧
      (generateAdCampaigns "img" none (.parsed cexRes2) cexRender1).2.count
          (Event.renderCall k) = 1) ∧
    (∀ k, k + 1 < cexRes2.campaigns.length →
      [Event.renderSettled k, Event.renderCall (k + 1)].Sublist
        (generateAdCampaigns "img" none (.parsed cexRes2) cexRender1).2) :=
  generateAdCampaigns_progress_sequential "img" none cexRes2 cexRender1

/-- Counterexample to claim C9 as stated: for an accumulated list whose
ids are 2 and 5, `handleGenerateMore` computes `length + 1 = 3`, not
`max(existing) + 1 = 6`. -/
theorem next_id_not_max_cex :
    nextVariationId gapList = 3 ∧ specNextId gapList = 6 ∧
      nextVariationId gapList ≠ specNextId gapList := by
  refine ⟨rfl, ?_, ?_⟩ <;> decide

/-- Claim C9 (amended): the "add variation" path computes the new id as
`campaigns.length + 1` (which agrees with `max(existing) + 1` exactly
when the accumulated ids are the default sequence `1..N`), and
`generateSingleAdCampaign` assigns exactly the caller-supplied id, so a
successful variation carries id `length + 1`. -/
theorem next_id_length_based (cs : List AdCampaign) (char : String) (style : Option String)
    (draft : AdCampaign) (r : RenderResult) (out : AdCampaign)
    (h : generateSingleAdCampaign char style (nextVariationId cs) (.parsed draft) r
      = Except.ok out) :
    out.id = (cs.length : Int) + 1 ∧
    (cs.map (fun c => c.id) = (List.range cs.length).map (fun (j : Nat) => (j : Int) + 1) →
      nextVariationId cs = specNextId cs) := by
  constructor
  · cases r with
    | failed m => simp [generateSingleAdCampaign] at h
    | ok img =>
      cases img with
      | none =>
        simp only [generateSingleAdCampaign, Except.ok.injEq] at h
        rw [← h]
        rfl
      | some d =>
        simp only [generateSingleAdCampaign, Except.ok.injEq] at h
        rw [← h]
        rfl
  · intro hseq
    rw [nextVariationId, specNextId, hseq, foldr_max_range_ids]

/-- Concrete instance of `next_id_length_based`. -/
theorem next_id_length_based_witness :
    (generateSingleAdCampaign "img" none (nextVariationId gapList) (.parsed singleDraft)
        (RenderResult.ok none) = Except.ok { singleDraft with id := 3 }) ∧
    (({ singleDraft with id := 3 } : AdCampaign).id = (gapList.length : Int) + 1 ∧
      (gapList.map (fun c => c.id)
          = (List.range gapList.length).map (fun (j : Nat) => (j : Int) + 1) →
        nextVariationId gapList = specNextId gapList)) :=
  ⟨rfl, next_id_length_based gapList "img" none singleDraft (RenderResult.ok none)
    { singleDraft with id := 3 } rfl⟩

end VinAI
